import Mathlib

/-!
Verification development for `direct/src/p3d/pdeploy.py` (the Panda3D
deployment orchestrator).  The script is shallowly embedded below: the
mutable option-parsing loop becomes a fold over an option list, the
validation / dispatch control flow becomes a pure function producing an
exit code plus the ordered list of observable effects (printed messages,
builder constructions, builder invocations, HTML file writes), and the
external collaborators (`PandaSystem.getPlatform`, the Standalone and
Installer builders, the filesystem existence check) become parameters.
-/

namespace PDeploy

/-! ## String helpers mirroring the Python primitives used by the script -/

/-- Python `str.lower()` restricted to ASCII, which is all the script
compares (`'p3d'`, mode names, the shortname warning). -/
def pyLower (s : String) : String := String.mk (s.data.map Char.toLower)

/-- Python `str.strip()`: drop leading and trailing whitespace. -/
def pyStrip (s : String) : String :=
  String.mk (((s.data.dropWhile Char.isWhitespace).reverse.dropWhile Char.isWhitespace).reverse)

/-- Prefix test on character lists. -/
def isPrefixL : List Char → List Char → Bool
  | [], _ => true
  | _ :: _, [] => false
  | p :: ps, c :: cs => p = c && isPrefixL ps cs

/-- Python `s.startswith(pre)`. -/
def pyStartswith (s pre : String) : Bool := isPrefixL pre.data s.data

/-- Python `arg.split("=", 1)` on a character list: everything before the
first `'='` and, when a `'='` exists, everything after it. -/
def splitEqOnce : List Char → List Char × Option (List Char)
  | [] => ([], none)
  | c :: cs =>
    if c = '=' then ([], some cs)
    else
      let r := splitEqOnce cs
      (c :: r.1, r.2)

/-- Lines 129-131: `token = arg.strip().split("=", 1); tokens[token[0]] = token[1]`.
When the argument holds no `'='` the split has a single element and
`token[1]` raises an unhandled `IndexError`; this is modelled by `none`. -/
def parseTokenArg (arg : String) : Option (String × String) :=
  let t := splitEqOnce (pyStrip arg).data
  match t.2 with
  | none => none
  | some v => some (String.mk t.1, String.mk v)

/-! ## Model of the Panda `Filename` accessors used by the script.

`Filename` itself lives outside this repository slice; these accessors are
modelled from the spec (§3 Platform Identifier / §8 end-to-end examples):
`getBasename` is the part after the last slash, `getExtension` the part of
the basename after its last dot (empty when there is no dot), and
`getBasenameWoExtension` the basename with the extension and its dot
removed. -/

/-- Part of a character list after the last `'/'` (the whole list when no
slash occurs). -/
def basenameL : List Char → List Char
  | [] => []
  | c :: cs =>
    if c = '/' then basenameL cs
    else if ('/') ∈ cs then basenameL cs
    else c :: cs

/-- Part of a character list after the last `'.'`, empty when no dot occurs. -/
def extL : List Char → List Char
  | [] => []
  | c :: cs => if c = '.' ∧ ('.') ∉ cs then cs else extL cs

/-- Character list with everything from the last `'.'` on removed; the whole
list when no dot occurs. -/
def woExtL : List Char → List Char
  | [] => []
  | c :: cs => if c = '.' ∧ ('.') ∉ cs then [] else c :: woExtL cs

/-- Modelled from the spec: Panda `Filename.getBasename()`. -/
def getBasename (s : String) : String := String.mk (basenameL s.data)

/-- Modelled from the spec: Panda `Filename.getExtension()`. -/
def getExtension (s : String) : String := String.mk (extL (basenameL s.data))

/-- Modelled from the spec: Panda `Filename.getBasenameWoExtension()`. -/
def getBasenameWoExtension (s : String) : String := String.mk (woExtL (basenameL s.data))

/-- Modelled from the spec: the two-argument Panda `Filename(dir, rel)`
constructor joins with a single `'/'` (spec §8: `-o out` plus platform
`win32` gives `out/win32/app.exe`). -/
def filenameJoin (dir rel : String) : String :=
  if dir.data.getLast? = some ('/') then dir ++ rel else dir ++ ("/") ++ rel

/-! ## Data model -/

/-- Line 93: `DEPLOY_MODES = ["standalone", "installer", "html"]`. -/
def DEPLOY_MODES : List String := [("standalone"), ("installer"), ("html")]

/-- A single call into a builder collaborator: `build(outputPath, platform)`
or the bulk `buildAll(outputDir)`. -/
inductive BuildCall where
  | build (outputPath : String) (platform : String)
  | buildAll (outputDir : String)
deriving Repr, DecidableEq

/-- Observable effects of a run, in program order. -/
inductive Event where
  | message (s : String)
  | usagePrinted
  | standaloneConstructed
  | installerConstructed
  | standaloneBuild (call : BuildCall)
  | installerBuild (call : BuildCall)
  | htmlWrite (fileName : String) (content : String)
deriving Repr, DecidableEq

/-- Exit code together with the ordered effects of the run. -/
structure RunResult where
  exitCode : Nat
  events : List Event
deriving Repr, DecidableEq

def isBuilderEvent : Event → Bool
  | .standaloneBuild _ => true
  | .installerBuild _ => true
  | _ => false

/-- The builder invocations a run performed, in order. -/
def RunResult.builderEvents (r : RunResult) : List Event :=
  r.events.filter isBuilderEvent

/-- The HTML files a run wrote: (file name relative to the current working
directory, content). -/
def RunResult.htmlWrites (r : RunResult) : List (String × String) :=
  r.events.filterMap fun e =>
    match e with
    | .htmlWrite n c => some (n, c)
    | _ => none

/-- The mutable option-parsing state of lines 104-113, with its initial
values (`outputDir = Filename("./")`). -/
structure Config where
  shortname : String
  fullname : String
  version : String
  outputDir : String
  tokens : List (String × String)
  platforms : List String
  currentPlatform : Bool
  licensename : String
  licensefile : String
deriving Repr, DecidableEq

def initConfig : Config :=
  { shortname := ""
    fullname := ""
    version := ""
    outputDir := "./"
    tokens := []
    platforms := []
    currentPlatform := false
    licensename := ""
    licensefile := "" }

/-- The recognized command-line options (lines 120-138).  `-h` prints usage
and exits 0 inside the loop and `getopt` itself rejects unknown flags
before the loop runs, so neither reaches the orchestrator modelled here. -/
inductive CliOpt where
  | n (arg : String)
  | N (arg : String)
  | v (arg : String)
  | o (arg : String)
  | t (arg : String)
  | P (arg : String)
  | c
  | l (arg : String)
  | L (arg : String)
deriving Repr, DecidableEq

/-- One iteration of the option loop (lines 120-138).  `none` models the
unhandled `IndexError` from a `-t` argument without `'='`.  Note line 133:
a `-P` argument is appended verbatim, without any comma splitting.
`Filename.fromOsSpecific` is the identity on POSIX-style paths. -/
def applyOpt (c : Config) : CliOpt → Option Config
  | .n a => some { c with shortname := pyStrip a }
  | .N a => some { c with fullname := pyStrip a }
  | .v a => some { c with version := pyStrip a }
  | .o a => some { c with outputDir := a }
  | .t a =>
    match parseTokenArg a with
    | none => none
    | some kv => some { c with tokens := c.tokens ++ [kv] }
  | .P a => some { c with platforms := c.platforms ++ [a] }
  | .c => some { c with currentPlatform := true }
  | .l a => some { c with licensename := pyStrip a }
  | .L a => some { c with licensefile := a }

def applyOpts : Config → List CliOpt → Option Config
  | c, [] => some c
  | c, o :: os =>
    match applyOpt c o with
    | none => none
    | some c2 => applyOpts c2 os

/-! ## Messages printed by the script -/

def extensionErrorMsg : String := "Application filename must end in \".p3d\"."

def existsErrorMsg : String := "Application filename does not exist!"

def shortnameWarnMsg : String :=
  "\nProvided short name should be lowercase, and may not contain spaces!\n"

def versionErrorMsg : String := "\nA version number is required in \"installer\" mode.\n"

def outputDirErrorMsg : String := "\nYou must name the output directory with the -o parameter.\n"

/-! ## Validation and dispatch -/

/-- Line 151: `appFilename.getExtension().lower() != 'p3d'`. -/
def extensionCheckFails (p : String) : Bool :=
  !(pyLower (getExtension p) == ("p3d"))

/-- Lines 160-161: the lowercase/space warning, evaluated on the shortname
exactly as it stands after option parsing (before defaulting). -/
def warnEvents (cfg : Config) : List Event :=
  if pyLower cfg.shortname ≠ cfg.shortname ∨ (' ') ∈ cfg.shortname.data then
    [Event.message shortnameWarnMsg]
  else []

/-- Lines 163-164: default the shortname from the bundle's base name. -/
def resolvedShort (cfg : Config) (a : String) : String :=
  if cfg.shortname = ("") then getBasenameWoExtension a else cfg.shortname

/-- Lines 166-167: default the full name from the shortname. -/
def resolvedFull (cfg : Config) (a : String) : String :=
  if cfg.fullname = ("") then resolvedShort cfg a else cfg.fullname

/-- Lines 181-194: the standalone branch.  Returns the builder calls made,
in order. -/
def standaloneCalls (cp : Bool) (det : String) (plats : List String)
    (out sn : String) : List BuildCall :=
  if cp then
    if pyStartswith det ("win") then
      [BuildCall.build (filenameJoin out (sn ++ (".exe"))) det]
    else
      [BuildCall.build (filenameJoin out sn) det]
  else if plats = [] then [BuildCall.buildAll out]
  else
    plats.map fun p =>
      if pyStartswith p ("win") then
        BuildCall.build (filenameJoin out (p ++ ("/") ++ sn ++ (".exe"))) p
      else
        BuildCall.build (filenameJoin out (p ++ ("/") ++ sn)) p

/-- Lines 201-214: the installer branch.  The `win`/non-`win` split of the
source is kept even though both arms coincide. -/
def installerCalls (cp : Bool) (det : String) (plats : List String)
    (out : String) : List BuildCall :=
  if cp then
    if pyStartswith det ("win") then [BuildCall.build out det]
    else [BuildCall.build out det]
  else if plats = [] then [BuildCall.buildAll out]
  else
    plats.map fun p =>
      if pyStartswith p ("win") then BuildCall.build (filenameJoin out (p ++ ("/"))) p
      else BuildCall.build (filenameJoin out (p ++ ("/"))) p

/-- Lines 217-226: the eight `html.write` calls, concatenated. -/
def htmlContent (fn dataName : String) : String :=
  ("<html>\n") ++ ("  <head>\n") ++ ("    <title>") ++ fn ++ ("</title>\n")
    ++ ("  </head>\n") ++ ("  <body>\n")
    ++ ("    <object data=\"") ++ dataName
    ++ ("\" type=\"application/x-panda3d\"></object>\n")
    ++ ("  </body>\n") ++ ("</html>\n")

/-- Lines 176-229: mode dispatch.  `det` is the value of
`PandaSystem.getPlatform()` and `b` the (external) builders; the value each
`build`/`buildAll` call returns is bound to nothing in the source, which is
modelled by mapping `b` over the calls and discarding the results. -/
def dispatch (cfg : Config) (sn fn a mode det : String) (b : BuildCall → Bool) : RunResult :=
  if mode = ("standalone") then
    let calls := standaloneCalls cfg.currentPlatform det cfg.platforms cfg.outputDir sn
    let _ignored := calls.map b
    ⟨0, Event.standaloneConstructed :: calls.map Event.standaloneBuild⟩
  else if mode = ("installer") then
    let calls := installerCalls cfg.currentPlatform det cfg.platforms cfg.outputDir
    let _ignored := calls.map b
    ⟨0, Event.installerConstructed :: calls.map Event.installerBuild⟩
  else if mode = ("html") then
    ⟨0, [Event.message (("Creating ") ++ sn ++ (".html...")),
         Event.htmlWrite (sn ++ (".html")) (htmlContent fn (getBasename a))]⟩
  else ⟨1, [Event.usagePrinted, Event.message ("Invalid deployment mode!")]⟩

/-- Lines 150-229 for a well-formed argument pair: extension check, existence
check, shortname warning and defaulting, version and output-dir validation,
then dispatch.  `ex` is the result of the external `appFilename.exists()`. -/
def runChecked (cfg : Config) (a m : String) (ex : Bool) (det : String)
    (b : BuildCall → Bool) : RunResult :=
  if extensionCheckFails a then ⟨1, [Event.message extensionErrorMsg]⟩
  else if ex = false then ⟨1, [Event.message existsErrorMsg]⟩
  else if cfg.version = ("") ∧ pyLower m = ("installer") then
    ⟨1, warnEvents cfg ++ [Event.message versionErrorMsg]⟩
  else if cfg.outputDir = ("") then
    ⟨1, warnEvents cfg ++ [Event.message outputDirErrorMsg]⟩
  else
    let d := dispatch cfg (resolvedShort cfg a) (resolvedFull cfg a) a (pyLower m) det b
    ⟨d.exitCode, warnEvents cfg ++ d.events⟩

/-- Lines 144-147: `if not args or len(args) != 2: usage(1)`. -/
def runValidated (cfg : Config) (args : List String) (ex : Bool) (det : String)
    (b : BuildCall → Bool) : RunResult :=
  match args with
  | [a, m] => runChecked cfg a m ex det b
  | _ => ⟨1, [Event.usagePrinted]⟩

/-- The whole script after `getopt`: the option loop followed by validation
and dispatch.  `none` models termination by an unhandled exception inside
the option loop (`-t` without `'='`). -/
def runMain (opts : List CliOpt) (args : List String) (ex : Bool) (det : String)
    (b : BuildCall → Bool) : Option RunResult :=
  match applyOpts initConfig opts with
  | none => none
  | some cfg => some (runValidated cfg args ex det b)

/-! ## Helper lemmas about the string and path model -/

theorem strAssoc (a b c : String) : (a ++ b) ++ c = a ++ (b ++ c) := by
  apply String.ext
  simp [String.data_append, List.append_assoc]

theorem basenameL_append (xs ys : List Char) :
    basenameL (xs ++ ('/') :: ys) = basenameL ys := by
  induction xs with
  | nil => simp [basenameL]
  | cons c cs ih =>
    simp only [List.cons_append, basenameL]
    by_cases hc : c = '/'
    · simp [hc, ih]
    · have hm : ('/') ∈ cs ++ ('/') :: ys := by simp
      simp [hc, hm, ih]

theorem basenameL_eq_self (ys : List Char) (h : ('/') ∉ ys) : basenameL ys = ys := by
  cases ys with
  | nil => rfl
  | cons c cs =>
    have hc : ¬(c = '/') := by
      intro e
      exact h (by simp [e])
    have hm : ('/') ∉ cs := fun hx => h (List.mem_cons_of_mem _ hx)
    simp [basenameL, hc, hm]

theorem exists_concat_of_getLast {α : Type} (l : List α) (a : α)
    (h : l.getLast? = some a) : ∃ t, l = t ++ [a] := by
  induction l with
  | nil => simp at h
  | cons x xs ih =>
    cases xs with
    | nil =>
      simp [List.getLast?] at h
      exact ⟨[], by simp [h]⟩
    | cons y ys =>
      rw [List.getLast?_cons_cons] at h
      obtain ⟨t, ht⟩ := ih h
      exact ⟨x :: t, by simp [ht]⟩

theorem filenameJoin_data (dir rel : String) :
    ∃ zs, (filenameJoin dir rel).data = zs ++ ('/') :: rel.data := by
  unfold filenameJoin
  by_cases h : dir.data.getLast? = some ('/')
  · obtain ⟨t, ht⟩ := exists_concat_of_getLast dir.data ('/') h
    refine ⟨t, ?_⟩
    rw [if_pos h, String.data_append, ht]
    simp
  · refine ⟨dir.data, ?_⟩
    rw [if_neg h, String.data_append, String.data_append]
    have hslash : (("/") : String).data = [('/')] := rfl
    simp [hslash]

theorem getBasename_join (dir rel : String) (h : ('/') ∉ rel.data) :
    getBasename (filenameJoin dir rel) = rel := by
  obtain ⟨zs, hz⟩ := filenameJoin_data dir rel
  unfold getBasename
  rw [hz, basenameL_append, basenameL_eq_self _ h]

theorem getBasename_join_nested (dir p rel : String) (h : ('/') ∉ rel.data) :
    getBasename (filenameJoin dir (p ++ ("/") ++ rel)) = rel := by
  obtain ⟨zs, hz⟩ := filenameJoin_data dir (p ++ ("/") ++ rel)
  unfold getBasename
  rw [hz]
  have hslash : (("/") : String).data = [('/')] := rfl
  have hdat : (p ++ ("/") ++ rel).data = p.data ++ ('/') :: rel.data := by
    rw [String.data_append, String.data_append, hslash]
    simp
  rw [hdat,
    show zs ++ ('/') :: (p.data ++ ('/') :: rel.data)
        = (zs ++ ('/') :: p.data) ++ ('/') :: rel.data by simp,
    basenameL_append, basenameL_eq_self _ h]

theorem no_slash_append_exe (sn : String) (h : ('/') ∉ sn.data) :
    ('/') ∉ (sn ++ (".exe")).data := by
  rw [String.data_append]
  intro hx
  rcases List.mem_append.mp hx with h1 | h2
  · exact h h1
  · have : ('/') ∉ ((".exe") : String).data := by decide
    exact this h2


theorem strAppendEmpty (s : String) : s ++ ("") = s := by
  apply String.ext
  rw [String.data_append]
  simp [show (("") : String).data = [] from rfl]

/-! ## Claim theorems -/

/-- Claim C1, code evaluation at the failing input: with options
`-P win32,linux_amd64 -o out` and arguments `app.p3d standalone`, the script
performs exactly ONE standalone build invocation, for the literal platform
string `win32,linux_amd64`, with output path `out/win32,linux_amd64/app.exe`
(line 133 appends the `-P` argument verbatim; no comma splitting happens),
rather than the two invocations `out/win32/app.exe` and
`out/linux_amd64/app` that the claim (and the script's own usage text for
`-P`) describes. -/
theorem c1_comma_platform_not_split :
    runMain [CliOpt.P ("win32,linux_amd64"), CliOpt.o ("out")]
        [("app.p3d"), ("standalone")] true ("linux_amd64") (fun _ => true)
      = some ⟨0, [Event.standaloneConstructed,
          Event.standaloneBuild
            (BuildCall.build ("out/win32,linux_amd64/app.exe") ("win32,linux_amd64"))]⟩
    ∧ (RunResult.builderEvents
        ⟨0, [Event.standaloneConstructed,
          Event.standaloneBuild
            (BuildCall.build ("out/win32,linux_amd64/app.exe") ("win32,linux_amd64"))]⟩)
      ≠ [Event.standaloneBuild (BuildCall.build ("out/win32/app.exe") ("win32")),
         Event.standaloneBuild (BuildCall.build ("out/linux_amd64/app") ("linux_amd64"))] := by
  constructor
  · decide
  · decide

/-- Claim C3, counterexample: with exactly one explicit platform
(`-P linux_amd64 -o out`, no `-c`) the standalone artifact is still nested
under a platform-named subdirectory (`out/linux_amd64/app`), not placed
directly under the output directory (`filenameJoin "out" "app" = "out/app"`)
as the claim states. -/
theorem c3_counterexample :
    standaloneCalls false ("linux_i386") [("linux_amd64")] ("out") ("app")
        = [BuildCall.build ("out/linux_amd64/app") ("linux_amd64")]
    ∧ ("out/linux_amd64/app") ≠ filenameJoin ("out") ("app") := by
  constructor
  · decide
  · decide

/-- Claim C3, amended: when per-platform subdirectories are not suppressed
(no `-c`) and an explicit platform list was supplied, EVERY explicit-list
build (one platform or many) is nested one level under a directory named for
the platform identifier; when suppressed (current-platform-only mode) the
artifact is always placed directly under the output directory. -/
theorem c3_explicit_nesting :
    ∀ det plats out sn path p,
      (BuildCall.build path p ∈ standaloneCalls false det plats out sn →
        path = filenameJoin out (p ++ ("/") ++ sn ++ (".exe"))
          ∨ path = filenameJoin out (p ++ ("/") ++ sn))
      ∧ (BuildCall.build path p ∈ installerCalls false det plats out →
          path = filenameJoin out (p ++ ("/")))
      ∧ (BuildCall.build path p ∈ standaloneCalls true det plats out sn →
          path = filenameJoin out (sn ++ (".exe")) ∨ path = filenameJoin out sn)
      ∧ (BuildCall.build path p ∈ installerCalls true det plats out → path = out) := by
  intro det plats out sn path p
  refine ⟨?_, ?_, ?_, ?_⟩
  · intro hmem
    unfold standaloneCalls at hmem
    by_cases hp : plats = []
    · simp [hp] at hmem
    · simp only [if_neg, hp, if_false, Bool.false_eq_true, ite_false] at hmem
      rw [List.mem_map] at hmem
      obtain ⟨q, hq, heq⟩ := hmem
      by_cases hw : pyStartswith q ("win") = true
      · rw [if_pos hw] at heq
        obtain ⟨hpath, hplat⟩ := BuildCall.build.inj heq
        subst hplat
        exact Or.inl hpath.symm
      · rw [if_neg hw] at heq
        obtain ⟨hpath, hplat⟩ := BuildCall.build.inj heq
        subst hplat
        exact Or.inr hpath.symm
  · intro hmem
    unfold installerCalls at hmem
    by_cases hp : plats = []
    · simp [hp] at hmem
    · simp only [if_neg, hp, if_false, Bool.false_eq_true, ite_false] at hmem
      rw [List.mem_map] at hmem
      obtain ⟨q, hq, heq⟩ := hmem
      by_cases hw : pyStartswith q ("win") = true
      · rw [if_pos hw] at heq
        obtain ⟨hpath, hplat⟩ := BuildCall.build.inj heq
        subst hplat
        exact hpath.symm
      · rw [if_neg hw] at heq
        obtain ⟨hpath, hplat⟩ := BuildCall.build.inj heq
        subst hplat
        exact hpath.symm
  · intro hmem
    unfold standaloneCalls at hmem
    by_cases hw : pyStartswith det ("win") = true
    · simp only [if_pos, hw, if_true, List.mem_singleton] at hmem
      obtain ⟨hpath, hplat⟩ := BuildCall.build.inj hmem
      exact Or.inl hpath
    · simp only [if_neg, hw, ite_true, Bool.false_eq_true, ite_false, List.mem_singleton] at hmem
      obtain ⟨hpath, hplat⟩ := BuildCall.build.inj hmem
      exact Or.inr hpath
  · intro hmem
    unfold installerCalls at hmem
    by_cases hw : pyStartswith det ("win") = true
    · simp only [if_pos, hw, if_true, List.mem_singleton] at hmem
      exact (BuildCall.build.inj hmem).1
    · simp only [if_neg, hw, Bool.false_eq_true, ite_false, List.mem_singleton, ite_true] at hmem
      exact (BuildCall.build.inj hmem).1

/-- Claim C3, witness for the amended theorem at a concrete input. -/
theorem c3_nesting_witness :
    ("out/linux_amd64/app") = filenameJoin ("out") (("linux_amd64") ++ ("/") ++ ("app") ++ (".exe"))
    ∨ ("out/linux_amd64/app") = filenameJoin ("out") (("linux_amd64") ++ ("/") ++ ("app")) :=
  (c3_explicit_nesting ("linux_i386") [("linux_amd64")] ("out") ("app")
    ("out/linux_amd64/app") ("linux_amd64")).1 (by decide)

/-- Claim C4: when `-c` was supplied the standalone and installer branches
each perform exactly one build, for the platform returned by
`PandaSystem.getPlatform()`, with no per-platform subdirectory in the output
path, regardless of the explicit `-P` platform list (which is quantified
here and absent from the result): the `currentPlatform` branch is tested
before the explicit list. -/
theorem c4_current_platform_precedence :
    ∀ det plats out sn,
      standaloneCalls true det plats out sn
          = [BuildCall.build
              (filenameJoin out (sn ++ (if pyStartswith det ("win") then (".exe") else ("")))) det]
      ∧ installerCalls true det plats out = [BuildCall.build out det] := by
  intro det plats out sn
  constructor
  · by_cases hw : pyStartswith det ("win") = true
    · simp [standaloneCalls, hw]
    · simp [standaloneCalls, hw, strAppendEmpty]
  · by_cases hw : pyStartswith det ("win") = true
    · simp [installerCalls, hw]
    · simp [installerCalls, hw]

/-- Claim C5: in standalone mode, every build invocation (from `-c` or from
an explicit list) writes a file whose base name is the shortname with
`.exe` appended exactly when the platform identifier starts with `win`. -/
theorem c5_exe_suffix :
    ∀ cp det plats out sn path p,
      ('/') ∉ sn.data →
      BuildCall.build path p ∈ standaloneCalls cp det plats out sn →
      getBasename path = sn ++ (if pyStartswith p ("win") then (".exe") else ("")) := by
  intro cp det plats out sn path p hs hmem
  cases cp with
  | true =>
    unfold standaloneCalls at hmem
    by_cases hw : pyStartswith det ("win") = true
    · simp only [if_pos, hw, if_true, List.mem_singleton] at hmem
      obtain ⟨hpath, hplat⟩ := BuildCall.build.inj hmem
      subst hplat
      rw [hpath, if_pos hw, getBasename_join _ _ (no_slash_append_exe sn hs)]
    · simp only [if_neg, hw, Bool.false_eq_true, ite_false, ite_true, List.mem_singleton] at hmem
      obtain ⟨hpath, hplat⟩ := BuildCall.build.inj hmem
      subst hplat
      rw [hpath, if_neg hw, getBasename_join _ _ hs, strAppendEmpty]
  | false =>
    unfold standaloneCalls at hmem
    by_cases hp : plats = []
    · simp [hp] at hmem
    · simp only [Bool.false_eq_true, ite_false, if_neg, hp] at hmem
      rw [List.mem_map] at hmem
      obtain ⟨q, hq, heq⟩ := hmem
      by_cases hw : pyStartswith q ("win") = true
      · rw [if_pos hw] at heq
        obtain ⟨hpath, hplat⟩ := BuildCall.build.inj heq
        subst hplat
        rw [← hpath, if_pos hw, strAssoc (q ++ ("/")) sn (".exe"),
          getBasename_join_nested _ _ _ (no_slash_append_exe sn hs)]
      · rw [if_neg hw] at heq
        obtain ⟨hpath, hplat⟩ := BuildCall.build.inj heq
        subst hplat
        rw [← hpath, if_neg hw, getBasename_join_nested _ _ _ hs, strAppendEmpty]

/-- Claim C5, witness at a concrete input. -/
theorem c5_exe_suffix_witness :
    getBasename ("out/win32/app.exe")
      = ("app") ++ (if pyStartswith ("win32") ("win") then (".exe") else ("")) :=
  c5_exe_suffix false ("osx_i386") [("win32")] ("out") ("app")
    ("out/win32/app.exe") ("win32") (by decide) (by decide)

theorem splitEqOnce_snd_none (l : List Char) (h : ('=') ∉ l) :
    (splitEqOnce l).2 = none := by
  induction l with
  | nil => rfl
  | cons c cs ih =>
    have hc : ¬(c = '=') := fun e => h (by simp [e])
    have hm : ('=') ∉ cs := fun hx => h (List.mem_cons_of_mem _ hx)
    simp [splitEqOnce, hc, ih hm]

theorem mem_of_mem_dropWhile {α : Type} (p : α → Bool) (x : α) :
    ∀ l : List α, x ∈ l.dropWhile p → x ∈ l := by
  intro l
  induction l with
  | nil => simp [List.dropWhile]
  | cons c cs ih =>
    intro h
    simp only [List.dropWhile] at h
    split at h
    · exact List.mem_cons_of_mem _ (ih h)
    · exact h

theorem pyStrip_no_eq (s : String) (h : ('=') ∉ s.data) : ('=') ∉ (pyStrip s).data := by
  intro hx
  apply h
  have hx2 : ('=')
      ∈ ((s.data.dropWhile Char.isWhitespace).reverse.dropWhile Char.isWhitespace).reverse := hx
  rw [List.mem_reverse] at hx2
  have hx3 := mem_of_mem_dropWhile _ _ _ hx2
  rw [List.mem_reverse] at hx3
  exact mem_of_mem_dropWhile _ _ _ hx3

theorem parseTokenArg_no_eq (s : String) (h : ('=') ∉ s.data) : parseTokenArg s = none := by
  simp [parseTokenArg, splitEqOnce_snd_none _ (pyStrip_no_eq s h)]

theorem splitEqOnce_first (k v2 : List Char) (h : ('=') ∉ k) :
    splitEqOnce (k ++ ('=') :: v2) = (k, some v2) := by
  induction k with
  | nil => simp [splitEqOnce]
  | cons c cs ih =>
    have hc : ¬(c = '=') := fun e => h (by simp [e])
    have hm : ('=') ∉ cs := fun hx => h (List.mem_cons_of_mem _ hx)
    simp [splitEqOnce, hc, ih hm]

/-- Claim C10: a `-t` argument without `'='` makes `token[1]` index past the
end of the single-element split result, so parsing yields no token pair and
the whole run terminates with an unhandled exception (modelled as `none`);
when a `'='` is present the argument is split on the FIRST `'='` only, so
the token value may itself contain `'='`. -/
theorem c10_token_split :
    (∀ s : String, ('=') ∉ s.data → parseTokenArg s = none)
    ∧ (∀ (s a m : String) (ex : Bool) (det : String) (b : BuildCall → Bool),
        ('=') ∉ s.data → runMain [CliOpt.t s] [a, m] ex det b = none)
    ∧ (∀ k v2 : List Char, ('=') ∉ k → splitEqOnce (k ++ ('=') :: v2) = (k, some v2)) := by
  refine ⟨fun s h => parseTokenArg_no_eq s h, ?_, fun k v2 h => splitEqOnce_first k v2 h⟩
  intro s a m ex det b h
  simp [runMain, applyOpts, applyOpt, parseTokenArg_no_eq s h]

/-- Claim C10, witness at concrete inputs: `-t width` crashes the run; the
value of `-t width=600=800` is `600=800`, keeping its second `'='`. -/
theorem c10_token_split_witness :
    parseTokenArg ("width") = none
    ∧ runMain [CliOpt.t ("width")] [("app.p3d"), ("standalone")] true ("d") (fun _ => true) = none
    ∧ splitEqOnce (("width").data ++ ('=') :: ("600=800").data)
        = (("width").data, some (("600=800").data)) :=
  ⟨c10_token_split.1 ("width") (by decide),
   c10_token_split.2.1 ("width") ("app.p3d") ("standalone") true ("d")
     (fun _ => true) (by decide),
   c10_token_split.2.2 (("width").data) (("600=800").data) (by decide)⟩

/-! ## Structural lemmas about the run pipeline -/

theorem runMain_some (opts : List CliOpt) (args : List String) (ex : Bool)
    (det : String) (b : BuildCall → Bool) (cfg : Config)
    (h : applyOpts initConfig opts = some cfg) :
    runMain opts args ex det b = some (runValidated cfg args ex det b) := by
  simp [runMain, h]

theorem runValidated_pair (cfg : Config) (a m : String) (ex : Bool) (det : String)
    (b : BuildCall → Bool) :
    runValidated cfg [a, m] ex det b = runChecked cfg a m ex det b := rfl

theorem runChecked_ext_fail (cfg : Config) (a m : String) (ex : Bool) (det : String)
    (b : BuildCall → Bool) (h : extensionCheckFails a = true) :
    runChecked cfg a m ex det b = ⟨1, [Event.message extensionErrorMsg]⟩ := by
  simp [runChecked, h]

theorem runChecked_not_exists (cfg : Config) (a m : String) (det : String)
    (b : BuildCall → Bool) (h : extensionCheckFails a = false) :
    runChecked cfg a m false det b = ⟨1, [Event.message existsErrorMsg]⟩ := by
  simp [runChecked, h]

theorem runChecked_version_fail (cfg : Config) (a m : String) (det : String)
    (b : BuildCall → Bool) (h1 : extensionCheckFails a = false)
    (h3 : cfg.version = ("") ∧ pyLower m = ("installer")) :
    runChecked cfg a m true det b
      = ⟨1, warnEvents cfg ++ [Event.message versionErrorMsg]⟩ := by
  simp [runChecked, h1, h3]

theorem runChecked_outputDir_fail (cfg : Config) (a m : String) (det : String)
    (b : BuildCall → Bool) (h1 : extensionCheckFails a = false)
    (h3 : ¬(cfg.version = ("") ∧ pyLower m = ("installer")))
    (h4 : cfg.outputDir = ("")) :
    runChecked cfg a m true det b
      = ⟨1, warnEvents cfg ++ [Event.message outputDirErrorMsg]⟩ := by
  simp [runChecked, h1, h3, h4]

theorem runChecked_dispatch (cfg : Config) (a m : String) (det : String)
    (b : BuildCall → Bool) (h1 : extensionCheckFails a = false)
    (h3 : ¬(cfg.version = ("") ∧ pyLower m = ("installer")))
    (h4 : ¬(cfg.outputDir = (""))) :
    runChecked cfg a m true det b
      = ⟨(dispatch cfg (resolvedShort cfg a) (resolvedFull cfg a) a (pyLower m) det b).exitCode,
         warnEvents cfg
           ++ (dispatch cfg (resolvedShort cfg a) (resolvedFull cfg a) a (pyLower m) det b).events⟩ := by
  simp [runChecked, h1, h3, h4]

theorem dispatch_standalone (cfg : Config) (sn fn a det : String) (b : BuildCall → Bool) :
    dispatch cfg sn fn a ("standalone") det b
      = ⟨0, Event.standaloneConstructed
          :: (standaloneCalls cfg.currentPlatform det cfg.platforms cfg.outputDir sn).map
              Event.standaloneBuild⟩ := by
  unfold dispatch
  rw [if_pos rfl]

theorem dispatch_installer (cfg : Config) (sn fn a det : String) (b : BuildCall → Bool) :
    dispatch cfg sn fn a ("installer") det b
      = ⟨0, Event.installerConstructed
          :: (installerCalls cfg.currentPlatform det cfg.platforms cfg.outputDir).map
              Event.installerBuild⟩ := by
  unfold dispatch
  rw [if_neg (by decide), if_pos rfl]

theorem dispatch_html (cfg : Config) (sn fn a det : String) (b : BuildCall → Bool) :
    dispatch cfg sn fn a ("html") det b
      = ⟨0, [Event.message (("Creating ") ++ sn ++ (".html...")),
            Event.htmlWrite (sn ++ (".html")) (htmlContent fn (getBasename a))]⟩ := by
  unfold dispatch
  rw [if_neg (by decide), if_neg (by decide), if_pos rfl]

theorem dispatch_exit_zero (cfg : Config) (sn fn a mode det : String) (b : BuildCall → Bool)
    (h : mode ∈ DEPLOY_MODES) : (dispatch cfg sn fn a mode det b).exitCode = 0 := by
  simp only [DEPLOY_MODES, List.mem_cons, List.mem_singleton] at h
  rcases h with h | h | h | h
  · rw [h, dispatch_standalone]
  · rw [h, dispatch_installer]
  · rw [h, dispatch_html]
  · simp at h

theorem warnEvents_cases (cfg : Config) :
    warnEvents cfg = [] ∨ warnEvents cfg = [Event.message shortnameWarnMsg] := by
  unfold warnEvents
  split_ifs
  · right
    rfl
  · left
    rfl

theorem warn_mem_warnEvents (cfg : Config) :
    Event.message shortnameWarnMsg ∈ warnEvents cfg
      ↔ (pyLower cfg.shortname ≠ cfg.shortname ∨ (' ') ∈ cfg.shortname.data) := by
  unfold warnEvents
  split_ifs with h
  · simp [h]
  · simp [h]

/-- Claim C2: the run result is the same for every assignment of builder
outcomes (each `build`/`buildAll` return value is bound to nothing at lines
183-194 and 203-214, so outcomes are discarded), and whenever the mode is
one of `DEPLOY_MODES` and all validation passes — i.e. the dispatch phase
completes without an unhandled exception — the run reaches the final
`sys.exit(0)` (line 232) and the exit code is 0, no matter how many
platform builds failed. -/
theorem c2_exit_zero_ignores_build_results :
    ∀ (opts : List CliOpt) (a m : String) (ex : Bool) (det : String)
      (b1 b2 : BuildCall → Bool) (cfg : Config),
      runMain opts [a, m] ex det b1 = runMain opts [a, m] ex det b2
      ∧ (applyOpts initConfig opts = some cfg →
          pyLower m ∈ DEPLOY_MODES →
          extensionCheckFails a = false →
          ex = true →
          ¬(cfg.version = ("") ∧ pyLower m = ("installer")) →
          cfg.outputDir ≠ ("") →
          ∃ eff, runMain opts [a, m] ex det b1 = some eff ∧ eff.exitCode = 0) := by
  intro opts a m ex det b1 b2 cfg
  constructor
  · rfl
  · intro h1 hm h2 h3 h4 h5
    subst h3
    rw [runMain_some opts [a, m] true det b1 cfg h1, runValidated_pair,
      runChecked_dispatch cfg a m det b1 h2 h4 h5]
    exact ⟨_, rfl, dispatch_exit_zero cfg _ _ a (pyLower m) det b1 hm⟩

/-- Claim C2, witness: both requested platform builds fail (`b = fun _ =>
false`), yet the run exits 0. -/
theorem c2_exit_zero_witness :
    ∃ eff, runMain [CliOpt.P ("win32"), CliOpt.P ("osx_i386"), CliOpt.o ("out")]
        [("app.p3d"), ("standalone")] true ("linux_amd64") (fun _ => false) = some eff
      ∧ eff.exitCode = 0 :=
  (c2_exit_zero_ignores_build_results
      [CliOpt.P ("win32"), CliOpt.P ("osx_i386"), CliOpt.o ("out")]
      ("app.p3d") ("standalone") true ("linux_amd64") (fun _ => false) (fun _ => true)
      { shortname := ("")
        fullname := ("")
        version := ("")
        outputDir := ("out")
        tokens := []
        platforms := [("win32"), ("osx_i386")]
        currentPlatform := false
        licensename := ("")
        licensefile := ("") }).2
    (by decide) (by decide) (by decide) rfl (by decide) (by decide)

/-- Claim C7: whenever the parsed options leave the version empty and the
mode argument lowercases to `installer`, the run exits with code 1, performs
no builder invocation, never constructs the Installer collaborator (the
check at lines 169-171 precedes the dispatch at line 196), and prints an
error message. -/
theorem c7_installer_missing_version :
    ∀ (opts : List CliOpt) (a m : String) (ex : Bool) (det : String)
      (b : BuildCall → Bool) (cfg : Config),
      applyOpts initConfig opts = some cfg →
      cfg.version = ("") →
      pyLower m = ("installer") →
      ∃ eff, runMain opts [a, m] ex det b = some eff
        ∧ eff.exitCode = 1
        ∧ eff.builderEvents = []
        ∧ Event.installerConstructed ∉ eff.events
        ∧ ∃ msg, Event.message msg ∈ eff.events := by
  intro opts a m ex det b cfg h1 hv hm
  rw [runMain_some opts [a, m] ex det b cfg h1, runValidated_pair]
  by_cases hext : extensionCheckFails a = true
  · rw [runChecked_ext_fail cfg a m ex det b hext]
    exact ⟨_, rfl, rfl, by decide, by decide, ⟨extensionErrorMsg, by simp⟩⟩
  · have hext2 : extensionCheckFails a = false := by
      simpa using hext
    cases ex with
    | false =>
      rw [runChecked_not_exists cfg a m det b hext2]
      exact ⟨_, rfl, rfl, by decide, by decide, ⟨existsErrorMsg, by simp⟩⟩
    | true =>
      rw [runChecked_version_fail cfg a m det b hext2 ⟨hv, hm⟩]
      refine ⟨_, rfl, rfl, ?_, ?_, ⟨versionErrorMsg, by simp⟩⟩
      · rcases warnEvents_cases cfg with hw | hw
        · rw [RunResult.builderEvents, hw]
          rfl
        · rw [RunResult.builderEvents, hw]
          rfl
      · rcases warnEvents_cases cfg with hw | hw
        · rw [hw]
          decide
        · rw [hw]
          decide

/-- Claim C7, witness: `pdeploy app.p3d Installer` with no `-v`. -/
theorem c7_installer_missing_version_witness :
    ∃ eff, runMain [] [("app.p3d"), ("Installer")] true ("linux_amd64") (fun _ => true)
        = some eff
      ∧ eff.exitCode = 1
      ∧ eff.builderEvents = []
      ∧ Event.installerConstructed ∉ eff.events
      ∧ ∃ msg, Event.message msg ∈ eff.events :=
  c7_installer_missing_version [] ("app.p3d") ("Installer") true ("linux_amd64")
    (fun _ => true) initConfig rfl rfl (by decide)

/-- Claim C8: the bundle-extension check of line 151 depends only on the
lowercased extension, so `.p3d` and `.P3D` (and any other case variation)
behave identically, and every path whose lowercased extension is not `p3d`
makes the run exit with code 1 after printing the extension error. -/
theorem c8_extension_case_insensitive :
    (∀ p q : String, pyLower (getExtension p) = pyLower (getExtension q) →
        extensionCheckFails p = extensionCheckFails q)
    ∧ extensionCheckFails ("app.p3d") = false
    ∧ extensionCheckFails ("app.P3D") = false
    ∧ extensionCheckFails ("app.png") = true
    ∧ (∀ (opts : List CliOpt) (a m : String) (ex : Bool) (det : String)
          (b : BuildCall → Bool) (cfg : Config),
        applyOpts initConfig opts = some cfg →
        extensionCheckFails a = true →
        runMain opts [a, m] ex det b = some ⟨1, [Event.message extensionErrorMsg]⟩) := by
  refine ⟨?_, by decide, by decide, by decide, ?_⟩
  · intro p q h
    rw [extensionCheckFails, extensionCheckFails, h]
  · intro opts a m ex det b cfg h1 h2
    rw [runMain_some opts [a, m] ex det b cfg h1, runValidated_pair,
      runChecked_ext_fail cfg a m ex det b h2]

/-- Claim C8, witness: a run on `app.png` fails the extension check, and two
paths whose extensions agree after lowercasing get the same verdict. -/
theorem c8_extension_case_witness :
    runMain [] [("app.png"), ("standalone")] true ("d") (fun _ => true)
        = some ⟨1, [Event.message extensionErrorMsg]⟩
    ∧ extensionCheckFails ("x.P3d") = extensionCheckFails ("y.p3D") :=
  ⟨c8_extension_case_insensitive.2.2.2.2 [] ("app.png") ("standalone") true ("d")
      (fun _ => true) initConfig rfl (by decide),
   c8_extension_case_insensitive.1 ("x.P3d") ("y.p3D") (by decide)⟩

theorem creating_msg_ne_warn (sn : String) :
    ("Creating ") ++ sn ++ (".html...") ≠ shortnameWarnMsg := by
  intro h
  have h2 : ((("Creating ") ++ sn ++ (".html...")).data.head?) = shortnameWarnMsg.data.head? := by
    rw [h]
  rw [String.data_append, String.data_append,
    show (("Creating ") : String).data = ('C') :: ("reating ").data from rfl,
    show shortnameWarnMsg.data.head? = some ('\n') from rfl] at h2
  simp only [List.cons_append, List.head?_cons] at h2
  exact absurd (Option.some.inj h2) (by decide)

theorem warn_not_mem_dispatch (cfg : Config) (sn fn a mode det : String)
    (b : BuildCall → Bool) :
    Event.message shortnameWarnMsg ∉ (dispatch cfg sn fn a mode det b).events := by
  unfold dispatch
  split_ifs with h1 h2 h3
  · intro hmem
    rcases List.mem_cons.mp hmem with hc | hc
    · exact Event.noConfusion hc
    · obtain ⟨q, hq, heq⟩ := List.mem_map.mp hc
      exact Event.noConfusion heq
  · intro hmem
    rcases List.mem_cons.mp hmem with hc | hc
    · exact Event.noConfusion hc
    · obtain ⟨q, hq, heq⟩ := List.mem_map.mp hc
      exact Event.noConfusion heq
  · intro hmem
    rcases List.mem_cons.mp hmem with hc | hc
    · exact creating_msg_ne_warn sn (Event.message.inj hc).symm
    · rcases List.mem_singleton.mp hc with hc2
      exact Event.noConfusion hc2
  · intro hmem
    rcases List.mem_cons.mp hmem with hc | hc
    · exact Event.noConfusion hc
    · rcases List.mem_singleton.mp hc with hc2
      have : shortnameWarnMsg = ("Invalid deployment mode!") := (Event.message.inj hc2)
      exact absurd this (by decide)

theorem warn_mem_runChecked (cfg : Config) (a m : String) (ex : Bool) (det : String)
    (b : BuildCall → Bool) :
    (Event.message shortnameWarnMsg ∈ (runChecked cfg a m ex det b).events)
      ↔ (extensionCheckFails a = false ∧ ex = true
          ∧ (pyLower cfg.shortname ≠ cfg.shortname ∨ (' ') ∈ cfg.shortname.data)) := by
  by_cases h1 : extensionCheckFails a = true
  · rw [runChecked_ext_fail cfg a m ex det b h1]
    constructor
    · intro hmem
      have he : Event.message shortnameWarnMsg = Event.message extensionErrorMsg :=
        List.mem_singleton.mp hmem
      exact absurd (Event.message.inj he) (by decide)
    · rintro ⟨hf, -, -⟩
      rw [h1] at hf
      exact absurd hf (by decide)
  · have h1f : extensionCheckFails a = false := by
      simpa using h1
    cases ex with
    | false =>
      rw [runChecked_not_exists cfg a m det b h1f]
      constructor
      · intro hmem
        have he : Event.message shortnameWarnMsg = Event.message existsErrorMsg :=
          List.mem_singleton.mp hmem
        exact absurd (Event.message.inj he) (by decide)
      · rintro ⟨-, hf, -⟩
        exact absurd hf (by decide)
    | true =>
      by_cases h3 : cfg.version = ("") ∧ pyLower m = ("installer")
      · rw [runChecked_version_fail cfg a m det b h1f h3]
        constructor
        · intro hmem
          rcases List.mem_append.mp hmem with hc | hc
          · exact ⟨h1f, rfl, (warn_mem_warnEvents cfg).mp hc⟩
          · have he : Event.message shortnameWarnMsg = Event.message versionErrorMsg :=
              List.mem_singleton.mp hc
            exact absurd (Event.message.inj he) (by decide)
        · rintro ⟨-, -, hcond⟩
          exact List.mem_append_left _ ((warn_mem_warnEvents cfg).mpr hcond)
      · by_cases h4 : cfg.outputDir = ("")
        · rw [runChecked_outputDir_fail cfg a m det b h1f h3 h4]
          constructor
          · intro hmem
            rcases List.mem_append.mp hmem with hc | hc
            · exact ⟨h1f, rfl, (warn_mem_warnEvents cfg).mp hc⟩
            · have he : Event.message shortnameWarnMsg = Event.message outputDirErrorMsg :=
                List.mem_singleton.mp hc
              exact absurd (Event.message.inj he) (by decide)
          · rintro ⟨-, -, hcond⟩
            exact List.mem_append_left _ ((warn_mem_warnEvents cfg).mpr hcond)
        · rw [runChecked_dispatch cfg a m det b h1f h3 h4]
          constructor
          · intro hmem
            rcases List.mem_append.mp hmem with hc | hc
            · exact ⟨h1f, rfl, (warn_mem_warnEvents cfg).mp hc⟩
            · exact absurd hc (warn_not_mem_dispatch cfg _ _ a (pyLower m) det b)
          · rintro ⟨-, -, hcond⟩
            exact List.mem_append_left _ ((warn_mem_warnEvents cfg).mpr hcond)

/-- Claim C9: the lowercase/space warning of lines 160-161 is evaluated
before the shortname is defaulted from the bundle base name (lines 163-164):
when no `-n` value was parsed (`cfg.shortname` still empty) the warning is
never printed — whatever uppercase letters or spaces the bundle base name
contains — and, whenever the run reaches the warning point, the warning is
printed exactly when the parsed `-n` value has an uppercase letter or a
space. -/
theorem c9_warning_before_defaulting :
    ∀ (opts : List CliOpt) (a m : String) (ex : Bool) (det : String)
      (b : BuildCall → Bool) (cfg : Config) (eff : RunResult),
      applyOpts initConfig opts = some cfg →
      runMain opts [a, m] ex det b = some eff →
      ((cfg.shortname = ("") → Event.message shortnameWarnMsg ∉ eff.events)
       ∧ (extensionCheckFails a = false → ex = true →
           (Event.message shortnameWarnMsg ∈ eff.events
             ↔ (pyLower cfg.shortname ≠ cfg.shortname ∨ (' ') ∈ cfg.shortname.data)))) := by
  intro opts a m ex det b cfg eff h1 h2
  have hrm := runMain_some opts [a, m] ex det b cfg h1
  rw [h2] at hrm
  have he : eff = runChecked cfg a m ex det b := by
    rw [Option.some.inj hrm, runValidated_pair]
  subst he
  constructor
  · intro hsn hmem
    obtain ⟨-, -, hcond⟩ := (warn_mem_runChecked cfg a m ex det b).mp hmem
    rcases hcond with hne | hsp
    · apply hne
      rw [hsn]
      decide
    · rw [hsn] at hsp
      exact absurd hsp (by decide)
  · intro hext hex
    rw [warn_mem_runChecked cfg a m ex det b]
    constructor
    · rintro ⟨-, -, h⟩
      exact h
    · intro h
      exact ⟨hext, hex, h⟩

/-- Claim C9, witness: `-n MyApp` (uppercase) does warn — obtained through
the theorem's iff at a concrete run. -/
theorem c9_warning_witness :
    pyLower ("MyApp") ≠ ("MyApp") ∨ (' ') ∈ ("MyApp").data :=
  ((c9_warning_before_defaulting [CliOpt.n ("MyApp")] ("app.p3d") ("standalone")
      true ("linux_amd64") (fun _ => true)
      { shortname := ("MyApp")
        fullname := ("")
        version := ("")
        outputDir := ("./")
        tokens := []
        platforms := []
        currentPlatform := false
        licensename := ("")
        licensefile := ("") }
      ⟨0, [Event.message shortnameWarnMsg, Event.standaloneConstructed,
           Event.standaloneBuild (BuildCall.buildAll ("./"))]⟩
      (by decide) (by decide)).2 (by decide) rfl).mp (by decide)

theorem htmlContent_title (fn d : String) :
    ∃ u w, htmlContent fn d = u ++ (("<title>") ++ fn ++ ("</title>")) ++ w := by
  refine ⟨("<html>\n") ++ ("  <head>\n") ++ ("    "),
    ("\n") ++ ("  </head>\n") ++ ("  <body>\n") ++ ("    <object data=\"") ++ d
      ++ ("\" type=\"application/x-panda3d\"></object>\n") ++ ("  </body>\n") ++ ("</html>\n"),
    ?_⟩
  rw [htmlContent,
    show (("    <title>") : String) = ("    ") ++ ("<title>") from by decide,
    show (("</title>\n") : String) = ("</title>") ++ ("\n") from by decide]
  simp only [strAssoc]

theorem htmlContent_object (fn d : String) :
    ∃ u w, htmlContent fn d
      = u ++ (("<object data=\"") ++ d ++ ("\" type=\"application/x-panda3d\"></object>")) ++ w := by
  refine ⟨("<html>\n") ++ ("  <head>\n") ++ ("    <title>") ++ fn ++ ("</title>\n")
      ++ ("  </head>\n") ++ ("  <body>\n") ++ ("    "),
    ("\n") ++ ("  </body>\n") ++ ("</html>\n"), ?_⟩
  rw [htmlContent,
    show (("    <object data=\"") : String) = ("    ") ++ ("<object data=\"") from by decide,
    show (("\" type=\"application/x-panda3d\"></object>\n") : String)
        = ("\" type=\"application/x-panda3d\"></object>") ++ ("\n") from by decide]
  simp only [strAssoc]

/-- Claim C6: in html mode (with the bundle present and a non-empty output
directory so the run reaches dispatch) exactly one file is written, named
`<shortName>.html`, in the current working directory — the path is the bare
file name, untouched by `outputDir`; the platform list, `-c`, the version
and the builders are quantified and absent from the result — and its content
is the fixed HTML document whose head holds `<title>{fullName}</title>` and
whose body holds one `<object>` element with `data` equal to the bundle's
base file name and `type` equal to `application/x-panda3d`. -/
theorem c6_html_single_write :
    ∀ (opts : List CliOpt) (a m : String) (det : String) (b : BuildCall → Bool)
      (cfg : Config),
      applyOpts initConfig opts = some cfg →
      pyLower m = ("html") →
      extensionCheckFails a = false →
      cfg.outputDir ≠ ("") →
      ∃ eff, runMain opts [a, m] true det b = some eff
        ∧ eff.exitCode = 0
        ∧ eff.builderEvents = []
        ∧ eff.htmlWrites
            = [((resolvedShort cfg a) ++ (".html"),
                htmlContent (resolvedFull cfg a) (getBasename a))]
        ∧ (∃ u w, htmlContent (resolvedFull cfg a) (getBasename a)
            = u ++ (("<title>") ++ (resolvedFull cfg a) ++ ("</title>")) ++ w)
        ∧ (∃ u w, htmlContent (resolvedFull cfg a) (getBasename a)
            = u ++ (("<object data=\"") ++ getBasename a
                ++ ("\" type=\"application/x-panda3d\"></object>")) ++ w) := by
  intro opts a m det b cfg h1 hm hext ho
  have hnv : ¬(cfg.version = ("") ∧ pyLower m = ("installer")) := by
    rintro ⟨-, hi⟩
    rw [hm] at hi
    exact absurd hi (by decide)
  rw [runMain_some opts [a, m] true det b cfg h1, runValidated_pair,
    runChecked_dispatch cfg a m det b hext hnv ho, hm,
    dispatch_html cfg (resolvedShort cfg a) (resolvedFull cfg a) a det b]
  refine ⟨_, rfl, rfl, ?_, ?_,
    htmlContent_title (resolvedFull cfg a) (getBasename a),
    htmlContent_object (resolvedFull cfg a) (getBasename a)⟩
  · rcases warnEvents_cases cfg with hw | hw
    · rw [RunResult.builderEvents, hw]
      rfl
    · rw [RunResult.builderEvents, hw]
      rfl
  · rcases warnEvents_cases cfg with hw | hw
    · rw [RunResult.htmlWrites, hw]
      rfl
    · rw [RunResult.htmlWrites, hw]
      rfl

/-- Claim C6, witness: `pdeploy -N "My Game" -o out app.p3d html`. -/
theorem c6_html_single_write_witness :
    ∃ eff, runMain [CliOpt.N ("My Game"), CliOpt.o ("out")] [("app.p3d"), ("html")]
        true ("linux_amd64") (fun _ => true) = some eff
      ∧ eff.exitCode = 0
      ∧ eff.builderEvents = []
      ∧ eff.htmlWrites
          = [((resolvedShort
                { shortname := ("")
                  fullname := ("My Game")
                  version := ("")
                  outputDir := ("out")
                  tokens := []
                  platforms := []
                  currentPlatform := false
                  licensename := ("")
                  licensefile := ("") } ("app.p3d")) ++ (".html"),
              htmlContent
                (resolvedFull
                  { shortname := ("")
                    fullname := ("My Game")
                    version := ("")
                    outputDir := ("out")
                    tokens := []
                    platforms := []
                    currentPlatform := false
                    licensename := ("")
                    licensefile := ("") } ("app.p3d"))
                (getBasename ("app.p3d")))]
      ∧ (∃ u w, htmlContent
            (resolvedFull
              { shortname := ("")
                fullname := ("My Game")
                version := ("")
                outputDir := ("out")
                tokens := []
                platforms := []
                currentPlatform := false
                licensename := ("")
                licensefile := ("") } ("app.p3d"))
            (getBasename ("app.p3d"))
          = u ++ (("<title>")
              ++ (resolvedFull
                  { shortname := ("")
                    fullname := ("My Game")
                    version := ("")
                    outputDir := ("out")
                    tokens := []
                    platforms := []
                    currentPlatform := false
                    licensename := ("")
                    licensefile := ("") } ("app.p3d")) ++ ("</title>")) ++ w)
      ∧ (∃ u w, htmlContent
            (resolvedFull
              { shortname := ("")
                fullname := ("My Game")
                version := ("")
                outputDir := ("out")
                tokens := []
                platforms := []
                currentPlatform := false
                licensename := ("")
                licensefile := ("") } ("app.p3d"))
            (getBasename ("app.p3d"))
          = u ++ (("<object data=\"") ++ getBasename ("app.p3d")
              ++ ("\" type=\"application/x-panda3d\"></object>")) ++ w) :=
  c6_html_single_write [CliOpt.N ("My Game"), CliOpt.o ("out")] ("app.p3d") ("html")
    ("linux_amd64") (fun _ => true)
    { shortname := ("")
      fullname := ("My Game")
      version := ("")
      outputDir := ("out")
      tokens := []
      platforms := []
      currentPlatform := false
      licensename := ("")
      licensefile := ("") }
    (by decide) (by decide) (by decide) (by decide)

end PDeploy
